import Mathlib

/-!
# E-B-LAN: a verification development

A shallow embedding of the core of the E-B-LAN message-passing library
(request/response correlation, route/topic dispatch, discovery, JSON codec),
together with theorems checking the library's specification against it.

Conventions used throughout:
* TypeScript `Map`s and `Set`s are modelled as association lists / lists with
  membership-checked insertion (JS `Map` iteration order is insertion order,
  and `Set` membership is reference identity, modelled by `DecidableEq` on an
  abstract handler type `H`).
* JS falsiness (`!x`) on strings/numbers/objects is modelled explicitly
  (`""`, `0`, `null`/absent are falsy).
* Asynchronous effects (transport sends, promise resolution, logging,
  error-observer emissions) are returned as explicit effect lists.
-/

/-- JSON values, the payload universe of the library (the JSON codec is the
default `MessageFormat`).  Numbers are modelled as integers, which covers all
values the library itself produces (`Date.now()`, status codes, ports). -/
inductive Json where
  | null : Json
  | bool (b : Bool) : Json
  | num (n : Int) : Json
  | str (s : String) : Json
  | arr (elems : List Json) : Json
  | obj (fields : List (String × Json)) : Json

namespace Json

/-- JS truthiness of a JSON value (`!x` in the TypeScript source):
`null`, `false`, `0` and `""` are falsy, everything else truthy. -/
def truthy : Json → Bool
  | .null => false
  | .bool b => b
  | .num n => if n = 0 then false else true
  | .str s => if s = "" then false else true
  | .arr _ => true
  | .obj _ => true

/-- Property access `j.k` in JS: defined only on objects, `undefined`
(modelled `none`) otherwise. -/
def getField : Json → String → Option Json
  | .obj fields, key => fields.lookup key
  | _, _ => none

end Json

/-- JS truthiness of a possibly-`undefined` value: `undefined` is falsy. -/
def truthyOpt : Option Json → Bool
  | none => false
  | some j => j.truthy

/-- `src/types/index.ts` — `StatusCode` numeric enum. -/
def StatusCode.OK : Int := 200

def StatusCode.BAD_REQUEST : Int := 400

def StatusCode.NOT_FOUND : Int := 404

def StatusCode.INTERNAL_ERROR : Int := 500

/-- `src/types/index.ts` — `EblanError`, an `Error` carrying a status code. -/
structure EblanError where
  message : String
  statusCode : Int
deriving DecidableEq, Repr

/-- `src/types/index.ts` — `MessageType` string enum. -/
def MessageType.REQUEST : String := "request"

def MessageType.RESPONSE : String := "response"

def MessageType.EVENT : String := "event"

/-- `src/types/index.ts` — `MessageHeader`.  The `port` field is not declared
in the interface but is read by `Service.handleIncomingMessage`
(`message.header.port`), so it is carried here as an optional field. -/
structure MessageHeader where
  id : String
  type : String
  status : Option Int := none
  timestamp : Int
  service : String
  target : Option String := none
  port : Option Int := none

/-- `src/types/index.ts` — `Message<T>`, with the payload fixed to `Json`
(the codec-agnostic payload universe). -/
structure Message where
  header : MessageHeader
  payload : Json

/-- `src/types/index.ts` — `ServiceConfig`.  Only the fields the verified
components read are carried; the optional ones model `undefined` as `none`. -/
structure ServiceConfig where
  name : String
  port : Int
  host : Option String := none
  timeout : Option Int := none
  retries : Option Nat := none
deriving DecidableEq, Repr

/-- A wire buffer: either bytes that parse as JSON (carried as the parsed
value — `JSON.parse ∘ JSON.stringify` is the identity on JSON trees) or bytes
that do not parse (`JSON.parse` throws). -/
inductive Buffer where
  | valid (j : Json) : Buffer
  | malformed (reason : String) : Buffer

/-- `JSON.stringify` of a `MessageHeader` object: fields whose value is
`undefined` are omitted, the rest appear in declaration order. -/
def MessageHeader.toJson (h : MessageHeader) : Json :=
  .obj ([("id", .str h.id), ("type", .str h.type)]
    ++ (match h.status with | some s => [("status", .num s)] | none => [])
    ++ [("timestamp", .num h.timestamp), ("service", .str h.service)]
    ++ (match h.target with | some t => [("target", .str t)] | none => [])
    ++ (match h.port with | some p => [("port", .num p)] | none => []))

/-- `JSON.stringify` of a `Message` object. -/
def Message.toJson (m : Message) : Json :=
  .obj [("header", m.header.toJson), ("payload", m.payload)]

/-- `src/protocol/json-protocol.ts` — `JsonProtocol.serialize`:
`Buffer.from(JSON.stringify(message))`.  `JSON.stringify` cannot throw on the
acyclic values of this model, so the `catch` branch is unreachable. -/
def JsonProtocol.serialize (m : Message) : Buffer :=
  .valid m.toJson

/-- Reading a possibly-absent JSON field as a number, `none` otherwise. -/
def jsNumOpt : Option Json → Option Int
  | some (.num n) => some n
  | _ => none

/-- Reading a possibly-absent JSON field as a number, defaulting to `0`. -/
def jsNumD : Option Json → Int
  | some (.num n) => n
  | _ => 0

/-- Reading a possibly-absent JSON field as a string, `none` otherwise. -/
def jsStrOpt : Option Json → Option String
  | some (.str s) => some s
  | _ => none

/-- Reading the parsed JSON back into the typed `Message` shape.  The
TypeScript source performs no validation beyond the truthiness check in
`deserialize` (it casts `as Message<T>`); this reader is only reached once
`header`, `id`, `type` and `service` are truthy.  A truthy field of the wrong
runtime type (e.g. a numeric `id`), which the cast would let through
unchanged, is not representable in the typed shape and is mapped to the same
`BAD_REQUEST` error; no claim depends on such inputs.  Absent or ill-typed
optional fields are normalized (`timestamp` to `0`, options to `none`). -/
def jsonToMessage (j : Json) : Except EblanError Message :=
  match j.getField "header" with
  | some (.obj hf) =>
    match List.lookup "id" hf, List.lookup "type" hf, List.lookup "service" hf with
    | some (.str i), some (.str t), some (.str sv) =>
      .ok { header := { id := i,
                        type := t,
                        status := jsNumOpt (List.lookup "status" hf),
                        timestamp := jsNumD (List.lookup "timestamp" hf),
                        service := sv,
                        target := jsStrOpt (List.lookup "target" hf),
                        port := jsNumOpt (List.lookup "port" hf) },
            payload := (j.getField "payload").getD .null }
    | _, _, _ =>
      .error ⟨"Invalid message format: missing required header fields",
              StatusCode.BAD_REQUEST⟩
  | _ =>
    .error ⟨"Invalid message format: missing required header fields",
            StatusCode.BAD_REQUEST⟩

/-- `src/protocol/json-protocol.ts` — `JsonProtocol.deserialize`:
`JSON.parse`, then reject unless `message.header`, `message.header.id`,
`message.header.type` and `message.header.service` are all truthy.  A parse
failure is wrapped as `BAD_REQUEST`;  the validation failure is the
`EblanError` thrown at the `if` and rethrown as-is by the `catch`. -/
def JsonProtocol.deserialize (data : Buffer) : Except EblanError Message :=
  match data with
  | .malformed reason =>
      .error ⟨"Failed to deserialize message: " ++ reason, StatusCode.BAD_REQUEST⟩
  | .valid j =>
      if truthyOpt (j.getField "header") = false
          || truthyOpt ((j.getField "header").bind (fun h => h.getField "id")) = false
          || truthyOpt ((j.getField "header").bind (fun h => h.getField "type")) = false
          || truthyOpt ((j.getField "header").bind (fun h => h.getField "service")) = false
      then
        .error ⟨"Invalid message format: missing required header fields",
                StatusCode.BAD_REQUEST⟩
      else
        jsonToMessage j

/-- `Map.set` on a JS `Map` modelled as an association list: update the
existing entry in place, otherwise append (JS `Map` iteration order is
insertion order, and `set` on an existing key keeps its position). -/
def assocSet {α : Type} [DecidableEq String] (m : List (String × α)) (k : String) (v : α) :
    List (String × α) :=
  match m with
  | [] => [(k, v)]
  | (k', v') :: rest =>
      if k' = k then (k, v) :: rest else (k', v') :: assocSet rest k v

/-- `Map.delete` on a JS `Map` modelled as an association list. -/
def assocDelete {α : Type} (m : List (String × α)) (k : String) : List (String × α) :=
  match m with
  | [] => []
  | (k', v') :: rest =>
      if k' = k then rest else (k', v') :: assocDelete rest k

/-- A route or subscription handler.  Handlers are opaque references of an
arbitrary type `H` (JS `Set` membership and `unsubscribe` both compare by
reference identity); running one is delegated to an interpretation
`run : H → Message → Except String Json` where an `error` models a thrown JS
exception carrying that message string. -/
def HandlerRun (H : Type) : Type := H → Message → Except String Json

/-- `src/routing/index.ts` — `RouterImpl.register`: `this.routes.set(route, handler)`. -/
def RouterImpl.register {H : Type} (routes : List (String × H)) (route : String) (handler : H) :
    List (String × H) :=
  assocSet routes route handler

/-- `src/routing/index.ts` — `RouterImpl.unregister`: `this.routes.delete(route)`. -/
def RouterImpl.unregister {H : Type} (routes : List (String × H)) (route : String) :
    List (String × H) :=
  assocDelete routes route

/-- `src/routing/index.ts` — `RouterImpl.subscribe`: get (or create) the
topic's `Set` and `add` the handler (a no-op when already a member). -/
def RouterImpl.subscribe {H : Type} [DecidableEq H] (subs : List (String × List H))
    (topic : String) (handler : H) : List (String × List H) :=
  match subs.lookup topic with
  | none => assocSet subs topic [handler]
  | some set =>
      assocSet subs topic (if handler ∈ set then set else set ++ [handler])

/-- `src/routing/index.ts` — `RouterImpl.unsubscribe`: with a handler, delete
just that reference from the topic's `Set`; with no handler, delete the whole
topic entry; a no-op when the topic has no `Set` at all. -/
def RouterImpl.unsubscribe {H : Type} [DecidableEq H] (subs : List (String × List H))
    (topic : String) (handler : Option H) : List (String × List H) :=
  match subs.lookup topic with
  | none => subs
  | some set =>
      match handler with
      | some h => assocSet subs topic (set.erase h)
      | none => assocDelete subs topic

/-- One fan-out pass over a handler set (the `for (const handler of
subscribers)` loops of `route` and `publish`): every handler is invoked with
the message; a throwing handler's error is wrapped by `wrap` and emitted on
the router's `error` event channel, and iteration continues.  Returns the
invocation trace and the emitted errors, in order. -/
def runHandlers {H : Type} (run : HandlerRun H) (handlers : List H) (m : Message)
    (wrap : String → EblanError) : List (H × Message) × List EblanError :=
  match handlers with
  | [] => ([], [])
  | h :: rest =>
      let tail := runHandlers run rest m wrap
      ((h, m) :: tail.1,
       match run h m with
       | .ok _ => tail.2
       | .error e => wrap e :: tail.2)

/-- The outcome of `RouterImpl.route`: the returned value (or thrown
`EblanError`), the errors emitted on the router's `error` event channel, and
the trace of handler invocations. -/
structure RouteOut (H : Type) where
  result : Except EblanError (Option Json)
  emitted : List EblanError
  calls : List (H × Message)

/-- `src/routing/index.ts` — `RouterImpl.route`.
For a REQUEST: falsy `target` → throw `BAD_REQUEST`; no registered handler →
throw `NOT_FOUND`; a throwing handler → throw `INTERNAL_ERROR` wrapping its
message; otherwise the handler's result is returned.  For an EVENT: falsy
`target` → throw `BAD_REQUEST`; otherwise best-effort fan-out over the
topic's subscribers (absent set → nothing), always returning `null`.  Any
other message type returns `null`.  The route and subscription tables are
never mutated by `route`. -/
def RouterImpl.route {H : Type} (run : HandlerRun H) (routes : List (String × H))
    (subs : List (String × List H)) (m : Message) : RouteOut H :=
  if m.header.type = MessageType.REQUEST then
    let route := m.header.target.getD ""
    if route = "" then
      ⟨.error ⟨"Missing target in request message", StatusCode.BAD_REQUEST⟩, [], []⟩
    else
      match routes.lookup route with
      | none =>
          ⟨.error ⟨"No handler registered for route: " ++ route, StatusCode.NOT_FOUND⟩,
           [], []⟩
      | some h =>
          match run h m with
          | .ok r => ⟨.ok (some r), [], [(h, m)]⟩
          | .error e =>
              ⟨.error ⟨"Error handling message: " ++ e, StatusCode.INTERNAL_ERROR⟩,
               [], [(h, m)]⟩
  else if m.header.type = MessageType.EVENT then
    let topic := m.header.target.getD ""
    if topic = "" then
      ⟨.error ⟨"Missing target in event message", StatusCode.BAD_REQUEST⟩, [], []⟩
    else
      match subs.lookup topic with
      | none => ⟨.ok none, [], []⟩
      | some set =>
          let fanout := runHandlers run set m
            (fun e => ⟨"Error handling event: " ++ e, StatusCode.INTERNAL_ERROR⟩)
          ⟨.ok none, fanout.2, fanout.1⟩
  else
    ⟨.ok none, [], []⟩

/-- The outcome of `RouterImpl.publish`: the errors emitted on the router's
`error` event channel and the trace of handler invocations.  `publish` itself
never throws (every handler failure is caught inside the loop). -/
structure PubOut (H : Type) where
  emitted : List EblanError
  calls : List (H × Message)

/-- The EVENT envelope `RouterImpl.publish` constructs for local delivery
(`service: 'publisher'`, fresh id). -/
def RouterImpl.publishEnvelope (topic : String) (payload : Json) (freshId : String)
    (now : Int) : Message :=
  ⟨{ id := freshId, type := MessageType.EVENT, timestamp := now,
     service := "publisher", target := some topic }, payload⟩

/-- `src/routing/index.ts` — `RouterImpl.publish`: no subscriber set, or an
empty one → return without building a message; otherwise construct the EVENT
envelope once and fan it out over the set, isolating handler failures. -/
def RouterImpl.publish {H : Type} (run : HandlerRun H) (subs : List (String × List H))
    (topic : String) (payload : Json) (freshId : String) (now : Int) : PubOut H :=
  match subs.lookup topic with
  | none => ⟨[], []⟩
  | some set =>
      if set.length = 0 then ⟨[], []⟩
      else
        let m := RouterImpl.publishEnvelope topic payload freshId now
        let fanout := runHandlers run set m
          (fun e => ⟨"Error publishing to topic " ++ topic ++ ": " ++ e,
                     StatusCode.INTERNAL_ERROR⟩)
        ⟨fanout.2, fanout.1⟩

/-- `src/discovery/local-discovery.ts` — the in-memory registry is just the
`services` map. -/
structure LocalDiscoveryState where
  services : List (String × ServiceConfig)
deriving DecidableEq, Repr

/-- `src/discovery/local-discovery.ts` — `LocalDiscovery.register`: throw
`BAD_REQUEST` when the name is falsy (the check precedes every mutation),
otherwise `services.set(name, service)`.  State-passing style: the second
component is the registry after the call, unchanged when the call throws. -/
def LocalDiscovery.register (st : LocalDiscoveryState) (service : ServiceConfig) :
    Except EblanError Unit × LocalDiscoveryState :=
  if service.name = "" then
    (.error ⟨"Service name is required", StatusCode.BAD_REQUEST⟩, st)
  else
    (.ok (), ⟨assocSet st.services service.name service⟩)

/-- `src/discovery/local-discovery.ts` — `LocalDiscovery.discover`:
`services.get(name) || null`. -/
def LocalDiscovery.discover (st : LocalDiscoveryState) (serviceName : String) :
    Option ServiceConfig :=
  st.services.lookup serviceName

/-- `src/discovery/multicast-discovery.ts` — the state the `register` and
`discover` paths touch: the known-services cache, the own-service descriptor,
whether the heartbeat interval has been started, and the trace of
announcements sent on the multicast socket (`socket` presence is a flag;
`setupSocket` normally leaves it non-null). -/
structure MulticastDiscoveryState where
  services : List (String × ServiceConfig)
  serviceInfo : Option ServiceConfig
  heartbeatStarted : Bool
  announces : List ServiceConfig
  socketUp : Bool
deriving DecidableEq, Repr

/-- `src/discovery/multicast-discovery.ts` — `MulticastDiscovery.register`:
throw `BAD_REQUEST` when the name is falsy (the check precedes every
mutation); otherwise store the descriptor as `serviceInfo`, cache it in
`services`, start the heartbeat, and broadcast a `service` announce if the
socket is up. -/
def MulticastDiscovery.register (st : MulticastDiscoveryState) (service : ServiceConfig) :
    Except EblanError Unit × MulticastDiscoveryState :=
  if service.name = "" then
    (.error ⟨"Service name is required", StatusCode.BAD_REQUEST⟩, st)
  else
    (.ok (),
     { st with
         serviceInfo := some service,
         services := assocSet st.services service.name service,
         heartbeatStarted := true,
         announces := if st.socketUp then st.announces ++ [service] else st.announces })

/-- `src/discovery/multicast-discovery.ts` — the synchronous fast path of
`MulticastDiscovery.discover`: a cached entry is returned immediately (the
slow path broadcasts a query and waits on the `service-discovered` event,
resolving `null` after 3000 ms). -/
def MulticastDiscovery.discoverCached (st : MulticastDiscoveryState) (serviceName : String) :
    Option ServiceConfig :=
  st.services.lookup serviceName

/-- JS `a || b` on an optional retry/timeout count: `undefined` and `0` are
both falsy and fall back to the default (`src/unnamed/part_001` lines 130 and
228 use `options?.retries || this.config.retries!` and
`options.retries || 3`). -/
def jsOrNat (value : Option Nat) (dflt : Nat) : Nat :=
  match value with
  | some n => if n = 0 then dflt else n
  | none => dflt

/-- One recorded `Transport.send` attempt of a logical call: the serialized
bytes handed to `sendRequest` and the pending-map id it registers. -/
structure SendRec where
  data : Buffer
  reqId : String

/-- The observable outcome of `Service.request`: the value returned to the
caller (or the error thrown at it), the trace of `sendRequest` attempts, the
warnings logged for non-final failures, and the awaited backoff delays. -/
structure RequestOut where
  result : Except EblanError Json
  sends : List SendRec
  warned : List EblanError
  backoffs : List Nat

/-- The outcome of a single `sendRequest` attempt is decided by the
environment (a matching RESPONSE, the deadline timer, or a transport
failure); attempts are therefore indexed by an oracle
`att : Nat → Except EblanError Json` giving attempt `i`'s settled outcome. -/
def AttemptOracle : Type := Nat → Except EblanError Json

/-- `src/unnamed/part_001` lines 253–264 — the retry `for` loop of
`Service.request`, running attempts `i = 0, 1, …, retries-1`.  The recursion
is over `remaining := retries - i`, the number of loop iterations left, so
the current attempt index is `i = retries - remaining`; `remaining = 0` is
falling out of the loop (`i < retries` fails, possible only when the loop
runs zero times), which throws the line-267 `INTERNAL_ERROR`; at the last
iteration (`i === retries - 1`, i.e. `remaining = 1`) a failure rethrows its
error; any earlier failure is logged as a warning, a backoff of `100 * 2^i`
ms is awaited, and the loop continues. -/
def Service.requestLoop (att : AttemptOracle) (data : Buffer) (reqId : String)
    (retries : Nat) : (remaining : Nat) → RequestOut
  | 0 => ⟨.error ⟨"Request failed after retries", StatusCode.INTERNAL_ERROR⟩, [], [], []⟩
  | remaining + 1 =>
      match att (retries - (remaining + 1)) with
      | .ok v => ⟨.ok v, [⟨data, reqId⟩], [], []⟩
      | .error e =>
          if remaining = 0 then
            ⟨.error e, [⟨data, reqId⟩], [], []⟩
          else
            let rest := Service.requestLoop att data reqId retries remaining
            ⟨rest.result, ⟨data, reqId⟩ :: rest.sends, e :: rest.warned,
             100 * 2 ^ (retries - (remaining + 1)) :: rest.backoffs⟩

/-- `src/unnamed/part_001` lines 238–247 — the REQUEST envelope
`Service.request` constructs once, before the retry loop. -/
def Service.requestEnvelope (cfgName : String) (freshId : String) (route : String)
    (payload : Json) (now : Int) : Message :=
  ⟨{ id := freshId, type := MessageType.REQUEST, timestamp := now,
     service := cfgName, target := some route }, payload⟩

/-- `src/unnamed/part_001` lines 221–268 — `Service.request`.  The effective
retry count resolves `options?.retries || this.config.retries!` where the
constructor has already resolved `config.retries = options.retries || 3`
(both `||`s treat `0` as missing).  Discovery failure throws `NOT_FOUND`
before the envelope is built; otherwise the envelope is built and serialized
once and the retry loop runs from attempt `0`. -/
def Service.request (discover : String → Option ServiceConfig) (att : AttemptOracle)
    (cfgName : String) (ctorRetries : Option Nat) (serviceName : String) (route : String)
    (payload : Json) (optRetries : Option Nat) (freshId : String) (now : Int) :
    RequestOut :=
  let retries := jsOrNat optRetries (jsOrNat ctorRetries 3)
  match discover serviceName with
  | none =>
      ⟨.error ⟨"Service not found: " ++ serviceName, StatusCode.NOT_FOUND⟩, [], [], []⟩
  | some _svc =>
      let message := Service.requestEnvelope cfgName freshId route payload now
      let data := JsonProtocol.serialize message
      Service.requestLoop att data message.header.id retries retries

/-- JS `a || b` on an optional numeric field (used for
`message.header.port || this.config.port` and
`message.header.status || StatusCode.INTERNAL_ERROR`): `undefined` and `0`
are falsy. -/
def jsOrInt (value : Option Int) (dflt : Int) : Int :=
  match value with
  | some n => if n = 0 then dflt else n
  | none => dflt

/-- JS template-string rendering of a possibly-undefined numeric field. -/
def statusText : Option Int → String
  | some n => toString n
  | none => "undefined"

/-- The `Service` state touched by the inbound-frame path: the
pending-requests map (id ↦ its deadline-timer handle), the route table and
the subscription table (the latter two owned by the embedded `RouterImpl`). -/
structure ServiceState (H : Type) where
  pending : List (String × Nat)
  routes : List (String × H)
  subs : List (String × List H)

/-- The observable outcome of `Service.handleIncomingMessage`: the state
afterwards, the frames passed to `Transport.send` (target, bytes), the
pending-call promises resolved (id, payload) and rejected (id, error), the
errors given to `errorHandler.handle`, and the errors emitted on the router's
`error` event channel. -/
structure HandleOut (H : Type) where
  state : ServiceState H
  sends : List (String × Buffer)
  resolved : List (String × Json)
  rejected : List (String × EblanError)
  handled : List EblanError
  emitted : List EblanError

/-- `src/unnamed/part_001` lines 369–386 — the OK response envelope built for
a routed REQUEST (`payload: result`, with `null` when the router returned
none). -/
def Service.respondOk (cfgName : String) (now : Int) (m : Message) (result : Option Json) :
    Message :=
  ⟨{ id := m.header.id, type := MessageType.RESPONSE, status := some StatusCode.OK,
     timestamp := now, service := cfgName, target := some m.header.service },
   result.getD .null⟩

/-- `src/unnamed/part_001` lines 397–409 — the error response envelope built
when processing a REQUEST threw (`status` from the `EblanError`, payload
`{error: message}`). -/
def Service.respondErr (cfgName : String) (now : Int) (m : Message) (e : EblanError) :
    Message :=
  ⟨{ id := m.header.id, type := MessageType.RESPONSE, status := some e.statusCode,
     timestamp := now, service := cfgName, target := some m.header.service },
   .obj [("error", .str e.message)]⟩

/-- `src/unnamed/part_001` lines 385 and 415 — the address a response is sent
to: `service:port` with the sender's `header.port` falling back to the
receiver's own configured port. -/
def Service.responseTarget (cfgPort : Int) (m : Message) : String :=
  m.header.service ++ ":" ++ toString (jsOrInt m.header.port cfgPort)

/-- `src/unnamed/part_001` lines 363–421 — the tail of
`handleIncomingMessage` once the frame is not a matching response: route the
message; on success send an OK response iff it was a REQUEST; on a thrown
`EblanError`, hand it to the error handler and send an error response iff it
was a REQUEST (re-deserializing `data` in the `catch` yields the same
message, deserialization being pure).  No branch mutates the state. -/
def Service.routeAndRespond {H : Type} (run : HandlerRun H) (cfgName : String)
    (cfgPort : Int) (st : ServiceState H) (m : Message) (now : Int) : HandleOut H :=
  let r := RouterImpl.route run st.routes st.subs m
  match r.result with
  | .ok result =>
      if m.header.type = MessageType.REQUEST then
        ⟨st, [(Service.responseTarget cfgPort m,
               JsonProtocol.serialize (Service.respondOk cfgName now m result))],
         [], [], [], r.emitted⟩
      else
        ⟨st, [], [], [], [], r.emitted⟩
  | .error e =>
      if m.header.type = MessageType.REQUEST then
        ⟨st, [(Service.responseTarget cfgPort m,
               JsonProtocol.serialize (Service.respondErr cfgName now m e))],
         [], [], [e], r.emitted⟩
      else
        ⟨st, [], [], [], [e], r.emitted⟩

/-- `src/unnamed/part_001` lines 330–422 — `Service.handleIncomingMessage`.
An undecodable frame is handed to the error handler and dropped (the `catch`
re-deserializes, fails again, and swallows).  A RESPONSE whose id has a
pending entry clears that entry's deadline timer, removes the entry, and
resolves (status OK) or rejects (any other status, defaulted to
`INTERNAL_ERROR` when absent) its promise.  Everything else — including a
RESPONSE with no pending entry — falls through to the router. -/
def Service.handleIncomingMessage {H : Type} (run : HandlerRun H) (cfgName : String)
    (cfgPort : Int) (st : ServiceState H) (data : Buffer) (now : Int) : HandleOut H :=
  match JsonProtocol.deserialize data with
  | .error e => ⟨st, [], [], [], [e], []⟩
  | .ok m =>
      if m.header.type = MessageType.RESPONSE then
        match st.pending.lookup m.header.id with
        | some _timer =>
            let st' := { st with pending := assocDelete st.pending m.header.id }
            if m.header.status = some StatusCode.OK then
              ⟨st', [], [(m.header.id, m.payload)], [], [], []⟩
            else
              ⟨st', [], [],
               [(m.header.id,
                 ⟨"Request failed with status " ++ statusText m.header.status,
                  jsOrInt m.header.status StatusCode.INTERNAL_ERROR⟩)], [], []⟩
        | none => Service.routeAndRespond run cfgName cfgPort st m now
      else
        Service.routeAndRespond run cfgName cfgPort st m now

/-- The correlator's timer/map bookkeeping state: the pending-requests map
(id ↦ deadline-timer handle), the set of live timers (each knows the id its
`setTimeout` callback captured), the in-flight `transport.send` promises
(each `catch` callback captured its attempt's id and timer handle), and a
counter minting timer handles. -/
structure CorrState where
  pending : List (String × Nat)
  timers : List (String × Nat)
  outstanding : List (String × Nat)
  nextTimer : Nat
deriving DecidableEq, Repr

/-- One atomic event-loop turn of the correlator (`src/unnamed/part_001`,
`sendRequest` lines 427–456 and `handleIncomingMessage` lines 336–361).
Under the library's single-threaded model each callback body runs without
interleaving, so each constructor is one callback:

* `startSend` — `sendRequest`: create the deadline timer and the map entry
  and start the transport send (lines 435–445).  The id is not already
  pending: a first attempt uses a fresh UUID, and a retry re-registers only
  after the previous attempt's entry was removed.
* `respMatch` — a matching RESPONSE: `clearTimeout` of the stored timer and
  `delete` of the entry (lines 340–345).
* `timerFire` — a live deadline timer fires, consuming itself and deleting
  the entry of its captured id (lines 435–438).
* `sendFail` — an in-flight send's `catch`: `clearTimeout` of the timer
  handle it captured and `delete` of the id it captured (lines 445–454).
  When `strict` is set, the step is only allowed while the captured attempt
  is still the current entry for that id (or the id is gone) — i.e. the
  callback is not superseded by a timeout-triggered retry of the same id.
* `sendOk` — an in-flight send's promise fulfills; nothing is cleaned up.
-/
inductive CorrStep : Bool → CorrState → CorrState → Prop where
  | startSend (strict : Bool) (id : String) (s : CorrState)
      (hfresh : s.pending.lookup id = none) :
      CorrStep strict s
        ⟨(id, s.nextTimer) :: s.pending, (id, s.nextTimer) :: s.timers,
         (id, s.nextTimer) :: s.outstanding, s.nextTimer + 1⟩
  | respMatch (strict : Bool) (id : String) (t : Nat) (s : CorrState)
      (hpend : s.pending.lookup id = some t) :
      CorrStep strict s
        ⟨assocDelete s.pending id, s.timers.erase (id, t), s.outstanding, s.nextTimer⟩
  | timerFire (strict : Bool) (id : String) (t : Nat) (s : CorrState)
      (hlive : (id, t) ∈ s.timers) :
      CorrStep strict s
        ⟨assocDelete s.pending id, s.timers.erase (id, t), s.outstanding, s.nextTimer⟩
  | sendFail (strict : Bool) (id : String) (t : Nat) (s : CorrState)
      (hout : (id, t) ∈ s.outstanding)
      (hcur : strict = true → s.pending.lookup id = none ∨ s.pending.lookup id = some t) :
      CorrStep strict s
        ⟨assocDelete s.pending id, s.timers.erase (id, t),
         s.outstanding.erase (id, t), s.nextTimer⟩
  | sendOk (strict : Bool) (id : String) (t : Nat) (s : CorrState)
      (hout : (id, t) ∈ s.outstanding) :
      CorrStep strict s
        ⟨s.pending, s.timers, s.outstanding.erase (id, t), s.nextTimer⟩

/-- Correlator states reachable from the initial (empty) state. -/
inductive CorrReachable (strict : Bool) : CorrState → Prop where
  | init : CorrReachable strict ⟨[], [], [], 0⟩
  | step {s s' : CorrState} (h : CorrReachable strict s) (hs : CorrStep strict s s') :
      CorrReachable strict s'

/-! ## Association-list facts used by the theorems -/

theorem lookup_none_not_mem {β : Type} {l : List (String × β)} {k : String}
    (h : l.lookup k = none) {v : β} : (k, v) ∉ l := by
  induction l with
  | nil => simp
  | cons p rest ih =>
      obtain ⟨k', v'⟩ := p
      by_cases hk : k = k'
      · subst hk
        simp [List.lookup] at h
      · simp only [List.lookup, beq_false_of_ne hk] at h
        simp only [List.mem_cons, not_or]
        exact ⟨fun he => hk (congrArg Prod.fst he), ih h⟩

theorem lookup_some_of_mem_nodup {β : Type} {l : List (String × β)}
    (hnd : (l.map Prod.fst).Nodup) {k : String} {v : β} (hm : (k, v) ∈ l) :
    l.lookup k = some v := by
  induction l with
  | nil => simp at hm
  | cons p rest ih =>
      obtain ⟨k', v'⟩ := p
      simp only [List.map_cons, List.nodup_cons] at hnd
      rcases List.mem_cons.mp hm with he | hm'
      · injection he with he1 he2
        subst he1
        subst he2
        simp [List.lookup]
      · have hk : k ≠ k' := by
          rintro rfl
          exact hnd.1 (List.mem_map.mpr ⟨(k, v), hm', rfl⟩)
        simp only [List.lookup, beq_false_of_ne hk]
        exact ih hnd.2 hm'

theorem assocDelete_of_lookup_none {β : Type} {l : List (String × β)} {k : String}
    (h : l.lookup k = none) : assocDelete l k = l := by
  induction l with
  | nil => rfl
  | cons p rest ih =>
      obtain ⟨k', v'⟩ := p
      by_cases hk : k' = k
      · subst hk
        simp [List.lookup] at h
      · have hk2 : k ≠ k' := fun he => hk he.symm
        simp only [List.lookup, beq_false_of_ne hk2] at h
        simp [assocDelete, hk, ih h]

theorem assocDelete_eq_erase {β : Type} [DecidableEq β] {l : List (String × β)}
    (hnd : (l.map Prod.fst).Nodup) {k : String} {v : β} (h : l.lookup k = some v) :
    assocDelete l k = l.erase (k, v) := by
  induction l with
  | nil => simp at h
  | cons p rest ih =>
      obtain ⟨k', v'⟩ := p
      simp only [List.map_cons, List.nodup_cons] at hnd
      by_cases hk : k' = k
      · subst hk
        simp only [List.lookup, beq_self_eq_true] at h
        simp only [Option.some.injEq] at h
        subst h
        simp [assocDelete, List.erase_cons]
      · have hk2 : k ≠ k' := fun he => hk he.symm
        simp only [List.lookup, beq_false_of_ne hk2] at h
        have hne : (k', v') ≠ (k, v) := fun he => hk (congrArg Prod.fst he)
        simp [assocDelete, hk, List.erase_cons, beq_false_of_ne hne, ih hnd.2 h]

theorem assocDelete_sublist {β : Type} (l : List (String × β)) (k : String) :
    (assocDelete l k).Sublist l := by
  induction l with
  | nil => simp [assocDelete]
  | cons p rest ih =>
      obtain ⟨k', v'⟩ := p
      by_cases hk : k' = k
      · simp only [assocDelete, if_pos hk]
        exact List.sublist_cons_self _ _
      · simpa [assocDelete, hk] using ih.cons₂ (k', v')

theorem lookup_assocSet_self {β : Type} (l : List (String × β)) (k : String) (v : β) :
    (assocSet l k v).lookup k = some v := by
  induction l with
  | nil => simp [assocSet, List.lookup]
  | cons p rest ih =>
      obtain ⟨k', v'⟩ := p
      by_cases hk : k' = k
      · simp [assocSet, hk, List.lookup]
      · have hk2 : k ≠ k' := fun he => hk he.symm
        simp [assocSet, hk, List.lookup, beq_false_of_ne hk2, ih]

theorem lookup_assocSet_ne {β : Type} (l : List (String × β)) (k k2 : String) (v : β)
    (h : k2 ≠ k) : (assocSet l k v).lookup k2 = l.lookup k2 := by
  induction l with
  | nil => simp [assocSet, List.lookup, beq_false_of_ne h]
  | cons p rest ih =>
      obtain ⟨k', v'⟩ := p
      by_cases hk : k' = k
      · subst hk
        simp [assocSet, List.lookup, beq_false_of_ne h]
      · by_cases hk2 : k2 = k'
        · subst hk2
          simp [assocSet, hk, List.lookup]
        · simp [assocSet, hk, List.lookup, beq_false_of_ne hk2, ih]

theorem mem_keys_assocSet {β : Type} {l : List (String × β)} {k k2 : String} {v : β}
    (h : k2 ∈ (assocSet l k v).map Prod.fst) : k2 ∈ l.map Prod.fst ∨ k2 = k := by
  induction l with
  | nil =>
      simp [assocSet] at h
      exact Or.inr h
  | cons p rest ih =>
      obtain ⟨k', v'⟩ := p
      by_cases hk : k' = k
      · simp only [assocSet, if_pos hk, List.map_cons, List.mem_cons] at h
        simp only [List.map_cons, List.mem_cons]
        rcases h with h | h
        · exact Or.inr h
        · exact Or.inl (Or.inr h)
      · simp only [assocSet, if_neg hk, List.map_cons, List.mem_cons] at h
        simp only [List.map_cons, List.mem_cons]
        rcases h with h | h
        · exact Or.inl (Or.inl h)
        · rcases ih h with h2 | h2
          · exact Or.inl (Or.inr h2)
          · exact Or.inr h2

theorem assocSet_keys_nodup {β : Type} {l : List (String × β)}
    (hnd : (l.map Prod.fst).Nodup) (k : String) (v : β) :
    ((assocSet l k v).map Prod.fst).Nodup := by
  induction l with
  | nil => simp [assocSet]
  | cons p rest ih =>
      obtain ⟨k', v'⟩ := p
      simp only [List.map_cons, List.nodup_cons] at hnd
      by_cases hk : k' = k
      · subst hk
        simpa [assocSet] using hnd
      · have htail := ih hnd.2
        simp only [assocSet, hk, if_false, List.map_cons, List.nodup_cons]
        refine ⟨fun hmem => ?_, htail⟩
        rcases mem_keys_assocSet hmem with h2 | h2
        · exact hnd.1 h2
        · exact hk h2

theorem lookup_eq_none_of_not_mem_keys {β : Type} {l : List (String × β)} {k : String}
    (h : k ∉ l.map Prod.fst) : l.lookup k = none := by
  induction l with
  | nil => rfl
  | cons p rest ih =>
      obtain ⟨k', v'⟩ := p
      simp only [List.map_cons, List.mem_cons, not_or] at h
      simp [List.lookup, beq_false_of_ne h.1, ih h.2]

theorem lookup_assocDelete_self {β : Type} {l : List (String × β)}
    (hnd : (l.map Prod.fst).Nodup) (k : String) :
    (assocDelete l k).lookup k = none := by
  induction l with
  | nil => rfl
  | cons p rest ih =>
      obtain ⟨k', v'⟩ := p
      simp only [List.map_cons, List.nodup_cons] at hnd
      by_cases hk : k' = k
      · simp only [assocDelete, if_pos hk]
        subst hk
        exact lookup_eq_none_of_not_mem_keys hnd.1
      · have hk2 : k ≠ k' := fun he => hk he.symm
        simp [assocDelete, hk, List.lookup, beq_false_of_ne hk2, ih hnd.2]

/-! ## Claim theorems -/

/-- **C3.**  A call via `Service.request` whose target name discovery cannot
resolve (`discover` returns `null`) throws an error with status `NOT_FOUND`
before any message is built or sent: the send trace, the warning log and the
backoff trace are all empty, so no `Transport.send` attempt occurs, no retry
is consumed, and no backoff delay is awaited. -/
theorem request_unresolvable_fails_immediately
    (discover : String → Option ServiceConfig) (att : AttemptOracle)
    (cfgName : String) (ctorRetries : Option Nat) (serviceName route : String)
    (payload : Json) (optRetries : Option Nat) (freshId : String) (now : Int)
    (h : discover serviceName = none) :
    Service.request discover att cfgName ctorRetries serviceName route payload
        optRetries freshId now =
      ⟨.error ⟨"Service not found: " ++ serviceName, StatusCode.NOT_FOUND⟩,
       [], [], []⟩ := by
  unfold Service.request
  rw [h]

/-- Witness for C3 at a concrete unresolvable name. -/
theorem request_unresolvable_fails_immediately_witness :
    (fun _ : String => (none : Option ServiceConfig)) "peer-b" = none ∧
    Service.request (fun _ => none) (fun _ => .ok .null) "peer-a" none "peer-b"
        "greeting" .null none "id-1" 17 =
      ⟨.error ⟨"Service not found: peer-b", StatusCode.NOT_FOUND⟩, [], [], []⟩ :=
  ⟨rfl,
   request_unresolvable_fails_immediately (fun _ => none) (fun _ => .ok .null)
     "peer-a" none "peer-b" "greeting" .null none "id-1" 17 rfl⟩

/-- **C10.**  For both discovery implementations, `register` with an
empty/missing service name throws an `EblanError` with status `BAD_REQUEST`
and leaves the registry untouched (the name check precedes every mutation),
so every subsequent `discover` answers exactly as before the failed call. -/
theorem discovery_register_empty_name_rejected
    (st : LocalDiscoveryState) (mst : MulticastDiscoveryState)
    (svc : ServiceConfig) (h : svc.name = "") :
    LocalDiscovery.register st svc =
        (.error ⟨"Service name is required", StatusCode.BAD_REQUEST⟩, st) ∧
    MulticastDiscovery.register mst svc =
        (.error ⟨"Service name is required", StatusCode.BAD_REQUEST⟩, mst) ∧
    (∀ n, LocalDiscovery.discover (LocalDiscovery.register st svc).2 n =
        LocalDiscovery.discover st n) ∧
    (∀ n, MulticastDiscovery.discoverCached (MulticastDiscovery.register mst svc).2 n =
        MulticastDiscovery.discoverCached mst n) := by
  refine ⟨?_, ?_, ?_, ?_⟩
  · unfold LocalDiscovery.register
    rw [if_pos h]
  · unfold MulticastDiscovery.register
    rw [if_pos h]
  · intro n
    unfold LocalDiscovery.register
    rw [if_pos h]
  · intro n
    unfold MulticastDiscovery.register
    rw [if_pos h]

/-- Witness for C10 at a concrete empty-named config. -/
theorem discovery_register_empty_name_rejected_witness :
    (⟨"", 9000, none, none, none⟩ : ServiceConfig).name = "" ∧
    LocalDiscovery.register ⟨[]⟩ ⟨"", 9000, none, none, none⟩ =
        (.error ⟨"Service name is required", StatusCode.BAD_REQUEST⟩, ⟨[]⟩) :=
  ⟨rfl,
   (discovery_register_empty_name_rejected ⟨[]⟩ ⟨[], none, false, [], true⟩
     ⟨"", 9000, none, none, none⟩ rfl).1⟩

/-- **C8.**  Registering `H2` on route name `R` after `H1` silently replaces
`H1`: the route table still has exactly one entry for `R` (unique keys are
preserved), lookup yields `H2`, and dispatching a REQUEST targeting `R`
invokes exactly `H2`, never `H1`. -/
theorem register_last_writer_wins {H : Type} (routes : List (String × H)) (R : String)
    (H1 H2 : H) (run : HandlerRun H) (subs : List (String × List H)) (m : Message)
    (hnd : (routes.map Prod.fst).Nodup) (hne : H1 ≠ H2)
    (hty : m.header.type = MessageType.REQUEST) (htg : m.header.target = some R)
    (hR : R ≠ "") :
    (RouterImpl.register (RouterImpl.register routes R H1) R H2).lookup R = some H2 ∧
    (((RouterImpl.register (RouterImpl.register routes R H1) R H2).map Prod.fst)).Nodup ∧
    (RouterImpl.route run (RouterImpl.register (RouterImpl.register routes R H1) R H2)
        subs m).calls = [(H2, m)] ∧
    (H1, m) ∉ (RouterImpl.route run (RouterImpl.register (RouterImpl.register routes R H1)
        R H2) subs m).calls := by
  have hl : (RouterImpl.register (RouterImpl.register routes R H1) R H2).lookup R
      = some H2 := lookup_assocSet_self _ _ _
  have hcalls : (RouterImpl.route run (RouterImpl.register (RouterImpl.register routes R H1)
      R H2) subs m).calls = [(H2, m)] := by
    unfold RouterImpl.route
    rw [if_pos hty, htg]
    simp only [Option.getD_some]
    rw [if_neg hR, hl]
    rcases hrun : run H2 m with v | e <;> simp [hrun]
  refine ⟨hl, ?_, hcalls, ?_⟩
  · exact assocSet_keys_nodup (assocSet_keys_nodup hnd R H1) R H2
  · rw [hcalls]
    intro hmem
    rcases List.mem_singleton.mp hmem with he
    exact hne (congrArg Prod.fst he)

/-- A concrete REQUEST message used by witnesses. -/
def sampleRequest (R : String) : Message :=
  { header := { id := "i", type := MessageType.REQUEST, timestamp := 0,
                service := "s", target := some R },
    payload := .null }

/-- Witness for C8 with two concrete handlers on route `"r"`. -/
theorem register_last_writer_wins_witness :
    (RouterImpl.register (RouterImpl.register ([] : List (String × Nat)) "r" 1) "r" 2).lookup
        "r" = some 2 ∧
    ((RouterImpl.register (RouterImpl.register ([] : List (String × Nat)) "r" 1)
        "r" 2).map Prod.fst).Nodup ∧
    (RouterImpl.route (fun _ _ => .ok .null)
        (RouterImpl.register (RouterImpl.register ([] : List (String × Nat)) "r" 1) "r" 2)
        [] (sampleRequest "r")).calls = [(2, sampleRequest "r")] ∧
    ((1 : Nat), sampleRequest "r") ∉
      (RouterImpl.route (fun _ _ => .ok .null)
        (RouterImpl.register (RouterImpl.register ([] : List (String × Nat)) "r" 1) "r" 2)
        [] (sampleRequest "r")).calls :=
  register_last_writer_wins [] "r" 1 2 (fun _ _ => .ok .null) [] (sampleRequest "r")
    List.nodup_nil (by decide) rfl rfl (by decide)

theorem runHandlers_calls {H : Type} (run : HandlerRun H) (handlers : List H)
    (m : Message) (wrap : String → EblanError) :
    (runHandlers run handlers m wrap).1 = handlers.map (fun h => (h, m)) := by
  induction handlers with
  | nil => rfl
  | cons h rest ih => simp [runHandlers, ih]

/-- **C7.**  `subscribe(t, h1)` followed by `unsubscribe(t, h1)` removes only
`h1`: topic `t`'s handler set is exactly what it was before (so a previously
subscribed `h2` remains), every other topic is untouched, and `h2` is still
invoked on the next EVENT dispatched to `t`.  `unsubscribe(t)` with no
handler argument removes every subscriber of `t`. -/
theorem subscribe_unsubscribe_removes_only {H : Type} [DecidableEq H]
    (subs : List (String × List H)) (t : String) (l : List H) (h1 h2 : H)
    (run : HandlerRun H) (routes : List (String × H)) (ev : Message)
    (hnd : (subs.map Prod.fst).Nodup)
    (hl : subs.lookup t = some l) (hmem : h2 ∈ l) (hnotin : h1 ∉ l)
    (hty : ev.header.type = MessageType.EVENT) (htg : ev.header.target = some t)
    (ht : t ≠ "") :
    (RouterImpl.unsubscribe (RouterImpl.subscribe subs t h1) t (some h1)).lookup t
        = some l ∧
    (∀ t2, t2 ≠ t →
      (RouterImpl.unsubscribe (RouterImpl.subscribe subs t h1) t (some h1)).lookup t2
        = subs.lookup t2) ∧
    (h2, ev) ∈ (RouterImpl.route run routes
        (RouterImpl.unsubscribe (RouterImpl.subscribe subs t h1) t (some h1)) ev).calls ∧
    (RouterImpl.unsubscribe subs t none).lookup t = none := by
  have hs1 : RouterImpl.subscribe subs t h1 = assocSet subs t (l ++ [h1]) := by
    unfold RouterImpl.subscribe
    rw [hl]
    show assocSet subs t (if h1 ∈ l then l else l ++ [h1]) = assocSet subs t (l ++ [h1])
    rw [if_neg hnotin]
  have herase : (l ++ [h1]).erase h1 = l := by
    rw [List.erase_append_right _ hnotin]
    simp
  have hs2 : RouterImpl.unsubscribe (RouterImpl.subscribe subs t h1) t (some h1)
      = assocSet (assocSet subs t (l ++ [h1])) t l := by
    rw [hs1]
    unfold RouterImpl.unsubscribe
    rw [lookup_assocSet_self]
    show assocSet (assocSet subs t (l ++ [h1])) t ((l ++ [h1]).erase h1)
        = assocSet (assocSet subs t (l ++ [h1])) t l
    rw [herase]
  have hlook : (RouterImpl.unsubscribe (RouterImpl.subscribe subs t h1) t
      (some h1)).lookup t = some l := by
    rw [hs2]
    exact lookup_assocSet_self _ _ _
  refine ⟨hlook, ?_, ?_, ?_⟩
  · intro t2 hne2
    rw [hs2, lookup_assocSet_ne _ _ _ _ hne2, lookup_assocSet_ne _ _ _ _ hne2]
  · unfold RouterImpl.route
    rw [hty]
    rw [if_neg (by decide : ¬ MessageType.EVENT = MessageType.REQUEST)]
    rw [if_pos rfl, htg]
    simp only [Option.getD_some]
    rw [if_neg ht, hlook]
    simp only [runHandlers_calls]
    exact List.mem_map.mpr ⟨h2, hmem, rfl⟩
  · unfold RouterImpl.unsubscribe
    rw [hl]
    exact lookup_assocDelete_self hnd t

/-- A concrete EVENT message used by witnesses. -/
def sampleEvent (t : String) : Message :=
  { header := { id := "i", type := MessageType.EVENT, timestamp := 0,
                service := "s", target := some t },
    payload := .null }

/-- Witness for C7 with two concrete handlers on topic `"t"`. -/
theorem subscribe_unsubscribe_removes_only_witness :
    (RouterImpl.unsubscribe (RouterImpl.subscribe [("t", [2])] "t" 1) "t"
        (some 1)).lookup "t" = some [2] ∧
    (∀ t2, t2 ≠ "t" →
      (RouterImpl.unsubscribe (RouterImpl.subscribe [("t", [(2 : Nat)])] "t" 1) "t"
          (some 1)).lookup t2 = [("t", [(2 : Nat)])].lookup t2) ∧
    ((2 : Nat), sampleEvent "t") ∈ (RouterImpl.route (fun _ _ => .ok .null) []
        (RouterImpl.unsubscribe (RouterImpl.subscribe [("t", [2])] "t" 1) "t" (some 1))
        (sampleEvent "t")).calls ∧
    (RouterImpl.unsubscribe [("t", [(2 : Nat)])] "t" none).lookup "t" = none :=
  subscribe_unsubscribe_removes_only [("t", [2])] "t" [2] 1 2 (fun _ _ => .ok .null)
    [] (sampleEvent "t") (by decide) rfl (by decide) (by decide) rfl rfl (by decide)

/-- **C4.**  Publishing payload `p` to a topic whose subscriber set is
`{h1, h2}` invokes `h2` exactly once with the event envelope carrying
payload `p`, even though `h1` throws: `h1`'s error is wrapped and emitted on
the router's error observer channel, the fan-out continues past it, and
nothing propagates to the publisher (`publish` returns its effect record
normally on every input — its result type has no failure case). -/
theorem publish_isolates_handler_failure {H : Type} [DecidableEq H]
    (run : HandlerRun H) (subs : List (String × List H)) (t : String) (p : Json)
    (freshId : String) (now : Int) (h1 h2 : H) (em : String)
    (hne : h1 ≠ h2)
    (hl : subs.lookup t = some [h1, h2])
    (hthrow : run h1 (RouterImpl.publishEnvelope t p freshId now) = .error em) :
    (RouterImpl.publish run subs t p freshId now).calls =
      [(h1, RouterImpl.publishEnvelope t p freshId now),
       (h2, RouterImpl.publishEnvelope t p freshId now)] ∧
    (RouterImpl.publishEnvelope t p freshId now).payload = p ∧
    List.count h2 ((RouterImpl.publish run subs t p freshId now).calls.map Prod.fst)
      = 1 ∧
    (⟨"Error publishing to topic " ++ t ++ ": " ++ em,
      StatusCode.INTERNAL_ERROR⟩ : EblanError)
      ∈ (RouterImpl.publish run subs t p freshId now).emitted := by
  have hpub : RouterImpl.publish run subs t p freshId now =
      ⟨(runHandlers run [h1, h2] (RouterImpl.publishEnvelope t p freshId now)
          (fun e => ⟨"Error publishing to topic " ++ t ++ ": " ++ e,
                     StatusCode.INTERNAL_ERROR⟩)).2,
       (runHandlers run [h1, h2] (RouterImpl.publishEnvelope t p freshId now)
          (fun e => ⟨"Error publishing to topic " ++ t ++ ": " ++ e,
                     StatusCode.INTERNAL_ERROR⟩)).1⟩ := by
    unfold RouterImpl.publish
    rw [hl]
    rfl
  refine ⟨?_, rfl, ?_, ?_⟩
  · rw [hpub]
    simp [runHandlers_calls]
  · rw [hpub]
    simp only [runHandlers_calls]
    simp [List.count_cons, Ne.symm hne]
  · rw [hpub]
    simp only [runHandlers, hthrow]
    exact List.mem_cons_self _ _

/-- The handler interpretation used by witnesses: handler `1` throws
`"boom"`, every other handler returns `null`. -/
def sampleRun : HandlerRun Nat :=
  fun h _ => if h = 1 then .error "boom" else .ok .null

/-- Witness for C4: topic `"t"` with subscribers `[1, 2]` where `1` throws. -/
theorem publish_isolates_handler_failure_witness :
    (RouterImpl.publish sampleRun [("t", [1, 2])] "t" (.str "p") "id" 0).calls =
      [(1, RouterImpl.publishEnvelope "t" (.str "p") "id" 0),
       (2, RouterImpl.publishEnvelope "t" (.str "p") "id" 0)] ∧
    (RouterImpl.publishEnvelope "t" (.str "p") "id" 0).payload = .str "p" ∧
    List.count 2 ((RouterImpl.publish sampleRun [("t", [1, 2])] "t" (.str "p")
        "id" 0).calls.map Prod.fst) = 1 ∧
    (⟨"Error publishing to topic t: boom", StatusCode.INTERNAL_ERROR⟩ : EblanError)
      ∈ (RouterImpl.publish sampleRun [("t", [1, 2])] "t" (.str "p") "id" 0).emitted :=
  publish_isolates_handler_failure sampleRun [("t", [1, 2])] "t" (.str "p") "id" 0
    1 2 "boom" (by decide) rfl rfl

theorem routeAndRespond_response_noop {H : Type} (run : HandlerRun H) (cfgName : String)
    (cfgPort : Int) (st : ServiceState H) (m : Message) (now : Int)
    (hty : m.header.type = MessageType.RESPONSE) :
    Service.routeAndRespond run cfgName cfgPort st m now = ⟨st, [], [], [], [], []⟩ := by
  have hroute : RouterImpl.route run st.routes st.subs m = ⟨.ok none, [], []⟩ := by
    unfold RouterImpl.route
    rw [hty]
    rfl
  unfold Service.routeAndRespond
  rw [hroute, hty]
  rfl

/-- **C2.**  An inbound frame that decodes to a RESPONSE whose id has no
pending-requests entry is dropped silently: `handleIncomingMessage` raises
no error (nothing reaches the error handler or the router's error channel),
sends nothing, resolves/rejects nothing, and leaves the pending-requests
map, the route table and the subscription table exactly as they were. -/
theorem unmatched_response_dropped {H : Type} (run : HandlerRun H) (cfgName : String)
    (cfgPort : Int) (st : ServiceState H) (data : Buffer) (now : Int) (m : Message)
    (hdec : JsonProtocol.deserialize data = .ok m)
    (hty : m.header.type = MessageType.RESPONSE)
    (hpend : st.pending.lookup m.header.id = none) :
    Service.handleIncomingMessage run cfgName cfgPort st data now
      = ⟨st, [], [], [], [], []⟩ := by
  unfold Service.handleIncomingMessage
  split
  · rename_i e heq
    rw [hdec] at heq
    exact Except.noConfusion heq
  · rename_i m2 heq
    rw [hdec] at heq
    injection heq with h
    subst h
    rw [if_pos hty, hpend]
    exact routeAndRespond_response_noop run cfgName cfgPort st m now hty

/-- A concrete RESPONSE message used by witnesses. -/
def sampleResponse : Message :=
  { header := { id := "rid", type := MessageType.RESPONSE,
                status := some StatusCode.OK, timestamp := 3,
                service := "peer-b", target := some "peer-a" },
    payload := .null }

/-- Witness for C2: a RESPONSE frame arriving at a service with an empty
pending map. -/
theorem unmatched_response_dropped_witness :
    JsonProtocol.deserialize (JsonProtocol.serialize sampleResponse)
        = .ok sampleResponse ∧
    sampleResponse.header.type = MessageType.RESPONSE ∧
    Service.handleIncomingMessage sampleRun "peer-a" 3000
        ⟨[], [], []⟩ (JsonProtocol.serialize sampleResponse) 9
      = ⟨⟨[], [], []⟩, [], [], [], [], []⟩ :=
  ⟨rfl, rfl,
   unmatched_response_dropped sampleRun "peer-a" 3000 ⟨[], [], []⟩
     (JsonProtocol.serialize sampleResponse) 9 sampleResponse rfl rfl rfl⟩

/-- **C9.**  The JSON codec: (1) for every message whose header has
non-empty `id`, `type` and `service`, `deserialize (serialize m)` returns
`m` unchanged; (2) bytes that are not valid JSON make `deserialize` throw
an `EblanError` with status `BAD_REQUEST`; (3) valid JSON whose header lacks
`id`, `type` or `service` (including a missing header altogether) makes
`deserialize` throw an `EblanError` with status `BAD_REQUEST`. -/
theorem json_protocol_roundtrip :
    (∀ m : Message, m.header.id ≠ "" → m.header.type ≠ "" → m.header.service ≠ "" →
      JsonProtocol.deserialize (JsonProtocol.serialize m) = .ok m) ∧
    (∀ reason, JsonProtocol.deserialize (.malformed reason)
        = .error ⟨"Failed to deserialize message: " ++ reason,
                  StatusCode.BAD_REQUEST⟩) ∧
    (∀ j : Json,
      ((j.getField "header").bind (fun h => h.getField "id") = none ∨
       (j.getField "header").bind (fun h => h.getField "type") = none ∨
       (j.getField "header").bind (fun h => h.getField "service") = none) →
      JsonProtocol.deserialize (.valid j)
        = .error ⟨"Invalid message format: missing required header fields",
                  StatusCode.BAD_REQUEST⟩) := by
  refine ⟨?_, fun reason => rfl, ?_⟩
  · rintro ⟨⟨mid, mty, mstatus, mts, msv, mtarget, mport⟩, mpayload⟩ hid hty hsv
    simp only [MessageHeader.id] at hid
    simp only [MessageHeader.type] at hty
    simp only [MessageHeader.service] at hsv
    cases mstatus <;> cases mtarget <;> cases mport <;>
      simp [JsonProtocol.serialize, Message.toJson, MessageHeader.toJson,
            JsonProtocol.deserialize, jsonToMessage, Json.getField, List.lookup,
            truthyOpt, Json.truthy, hid, hty, hsv, jsNumOpt, jsNumD, jsStrOpt]
  · intro j hlack
    have hcond : (decide (truthyOpt (j.getField "header") = false) ||
          decide (truthyOpt ((j.getField "header").bind fun h => h.getField "id") = false) ||
          decide (truthyOpt ((j.getField "header").bind fun h => h.getField "type") = false) ||
          decide (truthyOpt ((j.getField "header").bind fun h => h.getField "service") = false))
        = true := by
      rcases hlack with h | h | h <;> simp [h, truthyOpt]
    simp only [JsonProtocol.deserialize]
    rw [if_pos hcond]

/-- Witness for C9: a concrete roundtrip, a concrete parse failure, and a
concrete header-less JSON value. -/
theorem json_protocol_roundtrip_witness :
    JsonProtocol.deserialize (JsonProtocol.serialize sampleResponse)
        = .ok sampleResponse ∧
    JsonProtocol.deserialize (.malformed "not json")
        = .error ⟨"Failed to deserialize message: not json",
                  StatusCode.BAD_REQUEST⟩ ∧
    JsonProtocol.deserialize (.valid (.num 5))
        = .error ⟨"Invalid message format: missing required header fields",
                  StatusCode.BAD_REQUEST⟩ :=
  ⟨json_protocol_roundtrip.1 sampleResponse (by decide) (by decide) (by decide),
   json_protocol_roundtrip.2.1 "not json",
   json_protocol_roundtrip.2.2 (.num 5) (Or.inl rfl)⟩

theorem requestLoop_sends_const (att : AttemptOracle) (data : Buffer) (rid : String)
    (retries : Nat) :
    ∀ remaining, ∀ s ∈ (Service.requestLoop att data rid retries remaining).sends,
      s = ⟨data, rid⟩ := by
  intro remaining
  induction remaining with
  | zero =>
      intro s hs
      unfold Service.requestLoop at hs
      simp at hs
  | succ n ih =>
      intro s hs
      unfold Service.requestLoop at hs
      split at hs
      next v heq =>
        simp at hs
        simp [hs]
      next e heq =>
        split at hs
        next hfin =>
          simp at hs
          simp [hs]
        next hfin =>
          simp only [List.mem_cons] at hs
          rcases hs with hs | hs
          · exact hs
          · exact ih s hs

/-- **C6.**  Every `Transport.send` attempt of one logical call transmits the
same serialized bytes: the envelope (including its id) is built exactly once
before the retry loop, so each recorded attempt carries the serialization of
that one envelope and registers the same id — the id is never regenerated
per attempt. -/
theorem envelope_built_once_per_call
    (discover : String → Option ServiceConfig) (att : AttemptOracle)
    (cfgName : String) (ctorRetries : Option Nat) (serviceName route : String)
    (payload : Json) (optRetries : Option Nat) (freshId : String) (now : Int) :
    ∀ s ∈ (Service.request discover att cfgName ctorRetries serviceName route payload
        optRetries freshId now).sends,
      s.data = JsonProtocol.serialize
        (Service.requestEnvelope cfgName freshId route payload now) ∧
      s.reqId = freshId := by
  intro s hs
  unfold Service.request at hs
  rcases hdisc : discover serviceName with _ | svc
  · rw [hdisc] at hs
    simp at hs
  · rw [hdisc] at hs
    have hconst := requestLoop_sends_const att
      (JsonProtocol.serialize (Service.requestEnvelope cfgName freshId route payload now))
      freshId (jsOrNat optRetries (jsOrNat ctorRetries 3))
      (jsOrNat optRetries (jsOrNat ctorRetries 3)) s hs
    rw [hconst]
    exact ⟨rfl, rfl⟩

/-- Witness for C6 at a concrete call whose single attempt fulfills. -/
theorem envelope_built_once_per_call_witness :
    (⟨JsonProtocol.serialize (Service.requestEnvelope "peer-a" "id-1" "greeting"
        Json.null 17), "id-1"⟩ : SendRec).data
      = JsonProtocol.serialize (Service.requestEnvelope "peer-a" "id-1" "greeting"
        Json.null 17) ∧
    (⟨JsonProtocol.serialize (Service.requestEnvelope "peer-a" "id-1" "greeting"
        Json.null 17), "id-1"⟩ : SendRec).reqId = "id-1" :=
  envelope_built_once_per_call (fun _ => some ⟨"peer-b", 9000, none, none, none⟩)
    (fun _ => .ok .null) "peer-a" none "peer-b" "greeting" .null none "id-1" 17
    ⟨JsonProtocol.serialize (Service.requestEnvelope "peer-a" "id-1" "greeting"
        Json.null 17), "id-1"⟩
    (by
      have h : (Service.request
          (fun _ => some ⟨"peer-b", 9000, none, none, none⟩) (fun _ => .ok .null)
          "peer-a" none "peer-b" "greeting" .null none "id-1" 17).sends
          = [⟨JsonProtocol.serialize (Service.requestEnvelope "peer-a" "id-1"
              "greeting" Json.null 17), "id-1"⟩] := rfl
      rw [h]
      exact List.mem_singleton.mpr rfl)

theorem jsOrNat_pos (value : Option Nat) {dflt : Nat} (hd : 1 ≤ dflt) :
    1 ≤ jsOrNat value dflt := by
  unfold jsOrNat
  match value with
  | none => exact hd
  | some n =>
      by_cases hn : n = 0
      · simp [hn, hd]
      · simp [hn]
        omega

/-- What one run of the retry loop does, for `1 ≤ remaining ≤ retries`,
starting at attempt index `i0 = retries - remaining`: at least one and at
most `remaining` attempts are made, the returned outcome is exactly the last
attempt's outcome, and the warnings are exactly the failures of all earlier
attempts, in order. -/
theorem requestLoop_spec (att : AttemptOracle) (data : Buffer) (rid : String)
    (retries : Nat) :
    ∀ remaining, 1 ≤ remaining → remaining ≤ retries →
      1 ≤ (Service.requestLoop att data rid retries remaining).sends.length ∧
      (Service.requestLoop att data rid retries remaining).sends.length ≤ remaining ∧
      (Service.requestLoop att data rid retries remaining).result
        = att (retries - remaining
            + (Service.requestLoop att data rid retries remaining).sends.length - 1) ∧
      (Service.requestLoop att data rid retries remaining).warned.length + 1
        = (Service.requestLoop att data rid retries remaining).sends.length ∧
      (∀ k e, (Service.requestLoop att data rid retries remaining).warned.get? k = some e →
        att (retries - remaining + k) = .error e) := by
  intro remaining
  induction remaining with
  | zero => omega
  | succ n ih =>
      intro _ hle
      rcases hatt : att (retries - (n + 1)) with e | v
      · by_cases hfin : n = 0
        · subst hfin
          have hout : Service.requestLoop att data rid retries 1
              = ⟨.error e, [⟨data, rid⟩], [], []⟩ := by
            rw [Service.requestLoop]
            simp [hatt]
          rw [hout]
          refine ⟨by simp, by simp, by simp [hatt], by simp, ?_⟩
          intro k e2 hke
          simp at hke
        · have hout : Service.requestLoop att data rid retries (n + 1)
              = ⟨(Service.requestLoop att data rid retries n).result,
                 ⟨data, rid⟩ :: (Service.requestLoop att data rid retries n).sends,
                 e :: (Service.requestLoop att data rid retries n).warned,
                 100 * 2 ^ (retries - (n + 1))
                   :: (Service.requestLoop att data rid retries n).backoffs⟩ := by
            rw [Service.requestLoop]
            simp [hatt, if_neg hfin]
          obtain ⟨ih1, ih2, ih3, ih4, ih5⟩ := ih (by omega) (by omega)
          have hidx : retries - n = retries - (n + 1) + 1 := by omega
          rw [hout]
          refine ⟨by simp, by simp; omega, ?_, by simp; omega, ?_⟩
          · simp only [List.length_cons]
            rw [ih3, hidx]
            congr 1
            omega
          · intro k e2 hke
            match k with
            | 0 =>
                simp only [List.get?_cons_zero, Option.some.injEq] at hke
                subst hke
                simpa using hatt
            | k' + 1 =>
                simp only [List.get?_cons_succ] at hke
                have hk := ih5 k' e2 hke
                rw [hidx] at hk
                have harith : retries - (n + 1) + 1 + k' = retries - (n + 1) + (k' + 1) := by
                  omega
                rw [harith] at hk
                exact hk
      · have hout : Service.requestLoop att data rid retries (n + 1)
            = ⟨.ok v, [⟨data, rid⟩], [], []⟩ := by
          rw [Service.requestLoop]
          simp [hatt]
        rw [hout]
        refine ⟨by simp, by simp, by simp [hatt], by simp, ?_⟩
        intro k e2 hke
        simp at hke

/-- **C1 (amended).**  For every call via `Service.request`, let `R` be the
*effective* retry count — `options.retries` when present and non-zero, else
the constructor's `retries` when present and non-zero, else `3` (both JS
`||`s treat `0` like a missing value, so `R ≥ 1` always).  Then at most `R`
send attempts occur; and whenever discovery succeeds, at least one attempt
occurs, the value or error returned to the caller is exactly the final
attempt's outcome, and the warnings logged are exactly the failures of all
earlier attempts (observed, never surfaced). -/
theorem request_retry_bounded_and_final_outcome
    (discover : String → Option ServiceConfig) (att : AttemptOracle)
    (cfgName : String) (ctorRetries : Option Nat) (serviceName route : String)
    (payload : Json) (optRetries : Option Nat) (freshId : String) (now : Int) :
    (Service.request discover att cfgName ctorRetries serviceName route payload
        optRetries freshId now).sends.length
      ≤ jsOrNat optRetries (jsOrNat ctorRetries 3) ∧
    (∀ svc, discover serviceName = some svc →
      1 ≤ (Service.request discover att cfgName ctorRetries serviceName route payload
            optRetries freshId now).sends.length ∧
      (Service.request discover att cfgName ctorRetries serviceName route payload
          optRetries freshId now).result
        = att ((Service.request discover att cfgName ctorRetries serviceName route
            payload optRetries freshId now).sends.length - 1) ∧
      (Service.request discover att cfgName ctorRetries serviceName route payload
          optRetries freshId now).warned.length + 1
        = (Service.request discover att cfgName ctorRetries serviceName route payload
            optRetries freshId now).sends.length ∧
      (∀ k e, (Service.request discover att cfgName ctorRetries serviceName route
          payload optRetries freshId now).warned.get? k = some e →
        att k = .error e)) := by
  have hRpos : 1 ≤ jsOrNat optRetries (jsOrNat ctorRetries 3) :=
    jsOrNat_pos optRetries (jsOrNat_pos ctorRetries (by omega))
  rcases hdisc : discover serviceName with _ | svc
  · have hreq : Service.request discover att cfgName ctorRetries serviceName route
        payload optRetries freshId now
        = ⟨.error ⟨"Service not found: " ++ serviceName, StatusCode.NOT_FOUND⟩,
           [], [], []⟩ := by
      unfold Service.request
      rw [hdisc]
    rw [hreq]
    refine ⟨by simp, ?_⟩
    intro svc hdisc2
    exact Option.noConfusion hdisc2
  · have hreq : Service.request discover att cfgName ctorRetries serviceName route
        payload optRetries freshId now
        = Service.requestLoop att
            (JsonProtocol.serialize (Service.requestEnvelope cfgName freshId route
              payload now))
            freshId (jsOrNat optRetries (jsOrNat ctorRetries 3))
            (jsOrNat optRetries (jsOrNat ctorRetries 3)) := by
      unfold Service.request
      rw [hdisc]
      rfl
    obtain ⟨h1, h2, h3, h4, h5⟩ := requestLoop_spec att
      (JsonProtocol.serialize (Service.requestEnvelope cfgName freshId route payload now))
      freshId (jsOrNat optRetries (jsOrNat ctorRetries 3))
      (jsOrNat optRetries (jsOrNat ctorRetries 3)) hRpos (le_refl _)
    rw [hreq]
    refine ⟨h2, ?_⟩
    intro svc2 _
    refine ⟨h1, ?_, h4, ?_⟩
    · rw [h3]
      congr 1
      omega
    · intro k e hke
      have := h5 k e hke
      rw [Nat.sub_self, Nat.zero_add] at this
      exact this

/-- The always-failing attempt oracle used by the C1 counterexample and
witness (every `sendRequest` attempt rejects with a transport error). -/
def failingOracle : AttemptOracle :=
  fun _ => .error ⟨"send failed", StatusCode.INTERNAL_ERROR⟩

/-- A discovery function knowing one concrete peer, used by witnesses. -/
def sampleDiscover : String → Option ServiceConfig :=
  fun _ => some ⟨"peer-b", 9000, none, none, none⟩

/-- **C1 (counterexample).**  The claim "a call configured with R retries
makes at most R send attempts" fails at `R = 0`: `options.retries = 0` is
falsy under JS `||`, so the call falls back to the default of 3 and performs
3 send attempts — not at most 0. -/
theorem request_zero_retries_counterexample :
    (Service.request sampleDiscover failingOracle "peer-a" none "peer-b" "r" .null
        (some 0) "id-1" 0).sends.length = 3 ∧
    ¬ ((Service.request sampleDiscover failingOracle "peer-a" none "peer-b" "r" .null
        (some 0) "id-1" 0).sends.length ≤ 0) :=
  ⟨rfl, by decide⟩

/-- Witness for the amended C1 at a concrete always-failing call with the
default retry count. -/
theorem request_retry_bounded_witness :
    (Service.request sampleDiscover failingOracle "peer-a" none "peer-b" "r" .null
        none "id-1" 0).sends.length ≤ 3 ∧
    1 ≤ (Service.request sampleDiscover failingOracle "peer-a" none "peer-b" "r" .null
        none "id-1" 0).sends.length ∧
    (Service.request sampleDiscover failingOracle "peer-a" none "peer-b" "r" .null
        none "id-1" 0).result
      = failingOracle ((Service.request sampleDiscover failingOracle "peer-a" none
          "peer-b" "r" .null none "id-1" 0).sends.length - 1) :=
  ⟨(request_retry_bounded_and_final_outcome sampleDiscover failingOracle "peer-a" none
      "peer-b" "r" .null none "id-1" 0).1,
   ((request_retry_bounded_and_final_outcome sampleDiscover failingOracle "peer-a" none
      "peer-b" "r" .null none "id-1" 0).2 ⟨"peer-b", 9000, none, none, none⟩ rfl).1,
   ((request_retry_bounded_and_final_outcome sampleDiscover failingOracle "peer-a" none
      "peer-b" "r" .null none "id-1" 0).2 ⟨"peer-b", 9000, none, none, none⟩ rfl).2.1⟩

/-- Inductive invariant of the guarded (`strict`) correlator: the pending map
and the live-timer set are equal as lists of (id, timer) pairs, and ids are
unique among pending entries. -/
theorem corrStrict_inv {s : CorrState} (h : CorrReachable true s) :
    s.pending = s.timers ∧ (s.pending.map Prod.fst).Nodup := by
  induction h with
  | init => exact ⟨rfl, by simp⟩
  | @step s1 s2 hr hs ih =>
      obtain ⟨heq, hnd⟩ := ih
      cases hs with
      | startSend id st hfresh =>
          refine ⟨by rw [heq], ?_⟩
          simp only [List.map_cons, List.nodup_cons]
          refine ⟨?_, hnd⟩
          intro hmem
          rcases List.mem_map.mp hmem with ⟨⟨k, t2⟩, hm, he⟩
          cases he
          exact lookup_none_not_mem hfresh hm
      | respMatch id t st hpend =>
          refine ⟨?_, ?_⟩
          · rw [assocDelete_eq_erase hnd hpend, heq]
          · exact List.Nodup.sublist
              (List.Sublist.map Prod.fst (assocDelete_sublist s1.pending id)) hnd
      | timerFire id t st hlive =>
          have hmem : (id, t) ∈ s1.pending := by
            rw [heq]
            exact hlive
          have hpend := lookup_some_of_mem_nodup hnd hmem
          refine ⟨?_, ?_⟩
          · rw [assocDelete_eq_erase hnd hpend, heq]
          · exact List.Nodup.sublist
              (List.Sublist.map Prod.fst (assocDelete_sublist s1.pending id)) hnd
      | sendFail id t st hout hcur =>
          rcases hcur rfl with hnone | hsome
          · have hnotmem : (id, t) ∉ s1.timers := by
              rw [← heq]
              exact lookup_none_not_mem hnone
            refine ⟨?_, ?_⟩
            · rw [assocDelete_of_lookup_none hnone, List.erase_of_not_mem hnotmem, heq]
            · rw [assocDelete_of_lookup_none hnone]
              exact hnd
          · refine ⟨?_, ?_⟩
            · rw [assocDelete_eq_erase hnd hsome, heq]
            · exact List.Nodup.sublist
                (List.Sublist.map Prod.fst (assocDelete_sublist s1.pending id)) hnd
      | sendOk id t st hout => exact ⟨heq, hnd⟩

/-- **C5 (amended).**  In the correlator restricted so that no send-failure
callback fires after its attempt's entry was replaced by a timeout-triggered
retry of the same id (the `strict` guard — every other interleaving is
unrestricted), every reachable state pairs pending entries and live timers
exactly: no entry without its live timer, no live timer without its entry.
The unrestricted system violates this (see the counterexample): a transport
failure surfacing after the attempt timed out and a retry re-registered the
same id deletes the retry's entry while leaving the retry's timer live. -/
theorem pending_entry_and_timer_paired (s : CorrState) (h : CorrReachable true s) :
    (∀ p ∈ s.pending, p ∈ s.timers) ∧ (∀ p ∈ s.timers, p ∈ s.pending) := by
  obtain ⟨heq, _⟩ := corrStrict_inv h
  constructor
  · intro p hp
    rw [← heq]
    exact hp
  · intro p hp
    rw [heq]
    exact hp

/-- Witness for the amended C5 at the initial state. -/
theorem pending_entry_and_timer_paired_witness :
    (∀ p ∈ (⟨[], [], [], 0⟩ : CorrState).pending,
        p ∈ (⟨[], [], [], 0⟩ : CorrState).timers) ∧
    (∀ p ∈ (⟨[], [], [], 0⟩ : CorrState).timers,
        p ∈ (⟨[], [], [], 0⟩ : CorrState).pending) :=
  pending_entry_and_timer_paired ⟨[], [], [], 0⟩ CorrReachable.init

/-- **C5 (counterexample).**  In the unrestricted correlator the claimed
invariant fails on a reachable state: start a send for id `"a"` (timer 0),
let the deadline fire (entry and timer 0 gone), retry the same id (timer 1),
then let attempt 0's transport send fail late — its `catch` clears the dead
timer 0 but deletes `"a"`'s current entry, leaving live timer 1 with no
pending entry. -/
theorem late_send_failure_breaks_pairing :
    CorrReachable false ⟨[], [("a", 1)], [("a", 1)], 2⟩ ∧
    ("a", 1) ∈ (⟨[], [("a", 1)], [("a", 1)], 2⟩ : CorrState).timers ∧
    (⟨[], [("a", 1)], [("a", 1)], 2⟩ : CorrState).pending.lookup "a" = none ∧
    ¬ (∀ s : CorrState, CorrReachable false s →
        (∀ p ∈ s.pending, p ∈ s.timers) ∧ (∀ p ∈ s.timers, p ∈ s.pending)) := by
  have h0 : CorrReachable false ⟨[], [], [], 0⟩ := CorrReachable.init
  have h1 : CorrReachable false ⟨[("a", 0)], [("a", 0)], [("a", 0)], 1⟩ :=
    h0.step (CorrStep.startSend false "a" ⟨[], [], [], 0⟩ rfl)
  have h2 : CorrReachable false ⟨[], [], [("a", 0)], 1⟩ :=
    h1.step (CorrStep.timerFire false "a" 0 ⟨[("a", 0)], [("a", 0)], [("a", 0)], 1⟩
      (List.mem_singleton.mpr rfl))
  have h3 : CorrReachable false ⟨[("a", 1)], [("a", 1)], [("a", 1), ("a", 0)], 2⟩ :=
    h2.step (CorrStep.startSend false "a" ⟨[], [], [("a", 0)], 1⟩ rfl)
  have h4 : CorrReachable false ⟨[], [("a", 1)], [("a", 1)], 2⟩ :=
    h3.step (CorrStep.sendFail false "a" 0
      ⟨[("a", 1)], [("a", 1)], [("a", 1), ("a", 0)], 2⟩
      (by simp) (fun hfalse => Bool.noConfusion hfalse))
  refine ⟨h4, List.mem_singleton.mpr rfl, rfl, ?_⟩
  intro hall
  have hbad := (hall ⟨[], [("a", 1)], [("a", 1)], 2⟩ h4).2 ("a", 1)
    (List.mem_singleton.mpr rfl)
  simp at hbad
